import Mathlib

/-!
# Registration submitter (`reg_ajax.js`)

Shallow embedding of `attempt_register` from
`django/ctflex/static/ctflex/js/reg_ajax.js` and of the two callbacks it hands to
`$.ajax`.

Modelling choices.

* JavaScript strings are Lean `String`s and `+` on strings is `++`.
* A response is the parsed JSON object restricted to the shape the handler consumes:
  the `errors` key is either absent or holds an array of two-element string arrays;
  every other top-level field is kept in `others`.
* The page is explicit state: the current fields of `#register-submit`, the markup last
  assigned to `document.getElementById("errors").innerHTML`, the messages passed to
  `alert` (oldest first) and the calls made to `$.ajax` (oldest first).
* The element with id `errors` exists, and its contents are the markup last assigned to
  its `innerHTML`.
* `$.ajax` and `.serialize()` belong to jQuery, not to this repository. A call to
  `$.ajax` is recorded as an issued request; the serializer is a parameter.
-/

namespace RegAjax

/-! ## Data model -/

/-- One element of `response.errors`: `err[0]` is the field label, `err[1]` the message. -/
abbrev ErrorPair := String × String

/-- Parsed response body. `errors = none` means that `'errors' in response` is false. -/
structure Response where
  errors : Option (List ErrorPair)
  others : List (String × String)
deriving DecidableEq, Repr

/-- Settings object handed to `$.ajax` (the part that goes on the wire). -/
structure Request where
  url : String
  type : String
  data : String
deriving DecidableEq, Repr

/-- Observable page state around one or more calls of `attempt_register`. -/
structure Page where
  form : List (String × String)
  errorsHtml : String
  alerts : List String
  requests : List Request
deriving DecidableEq, Repr

/-! ## The program -/

/-- Initial value of `err_html` (line 9). -/
def errHeader : String := "<p>There were one or more errors:</p>"

/-- Right-hand side of `err_html += ...` for one `err` (line 12). -/
def errParagraph (err : ErrorPair) : String :=
  "<p>\t" ++ err.1 ++ ": " ++ err.2 ++ "</p>"

/-- Lines 9-13: `err_html` after the `for` loop has visited every element of
`response.errors` in index order. -/
def buildErrHtml (errors : List ErrorPair) : String :=
  errors.foldl (fun err_html err => err_html ++ errParagraph err) errHeader

/-- The `success` callback (lines 7-20). -/
def success (response : Response) (page : Page) : Page :=
  match response.errors with
  | some errors => { page with errorsHtml := buildErrHtml errors }
  | none => page

/-- The `error` callback (lines 22-24): `alert(err)`; `xhr` and `msg` are not used. -/
def error (_xhr : Nat) (_msg : String) (err : String) (page : Page) : Page :=
  { page with alerts := page.alerts ++ [err] }

/-- The body of `attempt_register` up to the return of `$.ajax` (lines 1-6 and 25). -/
def attempt_register (serialize : List (String × String) → String) (page : Page) : Page :=
  { page with
    requests := page.requests ++
      [{ url := "/register_user/", type := "POST", data := serialize page.form }] }

/-- Successful responses handled one after the other, in arrival order. -/
def deliverAll (responses : List Response) (page : Page) : Page :=
  responses.foldl (fun pg response => success response pg) page

/-! ## Reading a rendered block back as paragraphs

The claims speak of the paragraphs of the rendered block. `paragraphs` is the observation
used to state them: it reads markup that is a sequence of `<p>text</p>` elements whose text
holds no `<`, and gives the texts in document order (`none` for any other markup). -/

/-- Removes `lit` from the front of `s`; `none` when `s` does not start with `lit`. -/
def dropLit : List Char → List Char → Option (List Char)
  | [], s => some s
  | _ :: _, [] => none
  | c :: lit, d :: s => if c = d then dropLit lit s else none

/-- Splits `s` in front of its first `<`: character data, then the remainder. -/
def spanText : List Char → List Char × List Char
  | [] => ([], [])
  | c :: cs => if c = '<' then ([], c :: cs) else (c :: (spanText cs).1, (spanText cs).2)

/-- Reads at most `fuel` paragraphs from `s`. -/
def readParagraphs : Nat → List Char → Option (List String)
  | _, [] => some []
  | 0, _ :: _ => none
  | fuel + 1, c :: cs =>
    match dropLit ['<', 'p', '>'] (c :: cs) with
    | none => none
    | some body =>
      match dropLit ['<', '/', 'p', '>'] (spanText body).2 with
      | none => none
      | some rest =>
        match readParagraphs fuel rest with
        | none => none
        | some ps => some (String.mk (spanText body).1 :: ps)

/-- Paragraph texts of a block of markup, in document order. Every paragraph takes at
least seven characters, so the length of the markup is enough fuel. -/
def paragraphs (html : String) : Option (List String) :=
  readParagraphs html.length html.data

/-- A string without markup: it holds no `<`, so it cannot open or close a tag. -/
def NoMarkup (s : String) : Prop := '<' ∉ s.data

instance decidableNoMarkup (s : String) : Decidable (NoMarkup s) := by
  unfold NoMarkup; infer_instance

/-- Text of the paragraph that line 12 builds from `err`. -/
def errText (err : ErrorPair) : String := "\t" ++ err.1 ++ ": " ++ err.2

/-- Text of the header paragraph of line 9. -/
def headerText : String := "There were one or more errors:"

/-- The block as section 4.1 of the specification words it: the header, then one line
per tuple formatted as `<field_label>: <message>`. -/
def specBlock (errors : List ErrorPair) : String :=
  "<p>There were one or more errors:</p>" ++
    String.join (errors.map (fun err => "<p>" ++ err.1 ++ ": " ++ err.2 ++ "</p>"))

/-- The `errors` array of the last response in `responses` that has the key. -/
def lastErrors (responses : List Response) : Option (List ErrorPair) :=
  (responses.filterMap Response.errors).getLast?

/-- Markup of the paragraphs whose texts are `texts`, in order. -/
def wrapAll : List (List Char) → List Char
  | [] => []
  | t :: ts => ['<', 'p', '>'] ++ t ++ ['<', '/', 'p', '>'] ++ wrapAll ts

/-! ## Auxiliary lemmas -/

theorem foldl_append_acc (f : ErrorPair → String) (acc : String) (errors : List ErrorPair) :
    errors.foldl (fun err_html err => err_html ++ f err) acc
      = acc ++ String.join (errors.map f) := by
  induction errors generalizing acc with
  | nil => simp [String.join]
  | cons e es ih =>
    have hjoin : ∀ (a : String) (l : List String),
        List.foldl (fun r s => r ++ s) a l = a ++ List.foldl (fun r s => r ++ s) "" l := by
      intro a l
      induction l generalizing a with
      | nil => simp
      | cons x xs ihx =>
        simp only [List.foldl_cons]
        rw [ihx (a ++ x), ihx ("" ++ x)]
        simp [String.append_assoc]
    simp only [List.foldl_cons, List.map_cons, ih, String.join]
    rw [hjoin ("" ++ f e)]
    simp [String.append_assoc]

theorem buildErrHtml_eq_join (errors : List ErrorPair) :
    buildErrHtml errors = errHeader ++ String.join (errors.map errParagraph) :=
  foldl_append_acc errParagraph errHeader errors

theorem dropLit_append (lit s : List Char) : dropLit lit (lit ++ s) = some s := by
  induction lit with
  | nil => cases s <;> rfl
  | cons c lit ih => simp [dropLit, ih]

theorem spanText_append (t rest : List Char) (h : '<' ∉ t) :
    spanText (t ++ '<' :: rest) = (t, '<' :: rest) := by
  induction t with
  | nil => simp [spanText]
  | cons c t ih =>
    have hc : c ≠ '<' := fun hEq => h (by simp [hEq])
    have ht : '<' ∉ t := fun hMem => h (List.mem_cons_of_mem _ hMem)
    simp [spanText, hc, ih ht]

theorem length_le_wrapAll (ts : List (List Char)) : ts.length ≤ (wrapAll ts).length := by
  induction ts with
  | nil => simp [wrapAll]
  | cons t ts ih => simp [wrapAll]; omega

theorem readParagraphs_wrapAll (ts : List (List Char)) (h : ∀ t ∈ ts, '<' ∉ t) :
    ∀ fuel, ts.length ≤ fuel → readParagraphs fuel (wrapAll ts) = some (ts.map String.mk) := by
  induction ts with
  | nil => intro fuel _; cases fuel <;> simp [wrapAll, readParagraphs]
  | cons t ts ih =>
    intro fuel hfuel
    cases fuel with
    | zero => simp at hfuel
    | succ fuel =>
      have ht : '<' ∉ t := h t (by simp)
      have hts : ∀ u ∈ ts, '<' ∉ u := fun u hu => h u (List.mem_cons_of_mem _ hu)
      have hlen : ts.length ≤ fuel := by simpa using hfuel
      have hopen : dropLit ['<', 'p', '>'] ('<' :: 'p' :: '>' :: (t ++ '<' :: '/' :: 'p' :: '>' :: wrapAll ts))
          = some (t ++ '<' :: '/' :: 'p' :: '>' :: wrapAll ts) :=
        dropLit_append ['<', 'p', '>'] _
      have hclose : dropLit ['<', '/', 'p', '>'] ('<' :: '/' :: 'p' :: '>' :: wrapAll ts)
          = some (wrapAll ts) :=
        dropLit_append ['<', '/', 'p', '>'] _
      have hw : wrapAll (t :: ts) = '<' :: 'p' :: '>' :: (t ++ '<' :: '/' :: 'p' :: '>' :: wrapAll ts) := by
        simp [wrapAll]
      rw [hw]
      simp only [readParagraphs, hopen, spanText_append t _ ht, hclose, ih hts fuel hlen,
        List.map_cons]

theorem data_buildErrHtml (errors : List ErrorPair) :
    (buildErrHtml errors).data
      = wrapAll (headerText.data :: errors.map (fun err => (errText err).data)) := by
  have hacc : ∀ (acc : String) (es : List ErrorPair),
      (es.foldl (fun err_html err => err_html ++ errParagraph err) acc).data
        = acc.data ++ wrapAll (es.map (fun err => (errText err).data)) := by
    intro acc es
    induction es generalizing acc with
    | nil => simp [wrapAll]
    | cons e es ih =>
      have hp : (errParagraph e).data
          = ['<', 'p', '>'] ++ (errText e).data ++ ['<', '/', 'p', '>'] := by
        simp [errParagraph, errText, String.data_append]
      simp only [List.foldl_cons, List.map_cons, ih, String.data_append, hp, wrapAll]
      simp
  have hh : errHeader.data = ['<', 'p', '>'] ++ headerText.data ++ ['<', '/', 'p', '>'] := by
    decide
  simp only [buildErrHtml, hacc, hh, wrapAll]

theorem noMarkup_errText (err : ErrorPair) (h1 : NoMarkup err.1) (h2 : NoMarkup err.2) :
    '<' ∉ (errText err).data := by
  unfold NoMarkup at h1 h2
  simp [errText, String.data_append, h1, h2]

theorem paragraphs_buildErrHtml (errors : List ErrorPair)
    (h : ∀ err ∈ errors, NoMarkup err.1 ∧ NoMarkup err.2) :
    paragraphs (buildErrHtml errors) = some (headerText :: errors.map errText) := by
  have hno : ∀ t ∈ headerText.data :: errors.map (fun err => (errText err).data), '<' ∉ t := by
    intro t ht
    rcases List.mem_cons.mp ht with rfl | ht
    · decide
    · obtain ⟨err, herr, rfl⟩ := List.mem_map.mp ht
      exact noMarkup_errText err (h err herr).1 (h err herr).2
  have hlen := length_le_wrapAll (headerText.data :: errors.map (fun err => (errText err).data))
  unfold paragraphs
  rw [String.length, data_buildErrHtml, readParagraphs_wrapAll _ hno _ hlen]
  simp [Function.comp_def]

theorem lastErrors_concat (responses : List Response) (response : Response) :
    lastErrors (responses ++ [response])
      = match response.errors with
        | some errors => some errors
        | none => lastErrors responses := by
  unfold lastErrors
  cases h : response.errors with
  | none => simp [List.filterMap_append, List.filterMap_cons, h]
  | some errors => simp [List.filterMap_append, List.filterMap_cons, h]

theorem deliverAll_concat (responses : List Response) (response : Response) (page : Page) :
    deliverAll (responses ++ [response]) page = success response (deliverAll responses page) := by
  simp [deliverAll, List.foldl_append]

/-! ## The claims -/

/-- C1, as stated, fails. For the errors list `[("username", "already taken")]` the block
written by the success handler is not the header followed by a paragraph reading
`username: already taken`: the text of the error paragraph starts with a tab. And a
message that holds markup gives more than one paragraph for its tuple. -/
theorem c1_paragraph_text_starts_with_tab :
    (success ⟨some [("username", "already taken")], []⟩ ⟨[], "", [], []⟩).errorsHtml
        ≠ specBlock [("username", "already taken")]
      ∧ paragraphs (success ⟨some [("username", "already taken")], []⟩ ⟨[], "", [], []⟩).errorsHtml
        = some ["There were one or more errors:", "\tusername: already taken"]
      ∧ paragraphs (success ⟨some [("a", "b</p><p>\tc: d")], []⟩ ⟨[], "", [], []⟩).errorsHtml
        = some ["There were one or more errors:", "\ta: b", "\tc: d"] := by
  decide

/-- C1, amended. For every response that carries an `errors` list and every previous page
state, after the success handler the Error Display Region holds exactly the header
paragraph followed, in list order, by one piece of markup per tuple, each being
`<p>`, a tab, the field label, `: `, the message and `</p>`. -/
theorem success_writes_header_then_tabbed_lines (response : Response)
    (errors : List ErrorPair) (page : Page) (h : response.errors = some errors) :
    (success response page).errorsHtml
      = "<p>There were one or more errors:</p>" ++
          String.join (errors.map (fun err => "<p>\t" ++ err.1 ++ ": " ++ err.2 ++ "</p>")) := by
  simp only [success, h]
  exact buildErrHtml_eq_join errors

theorem success_writes_header_then_tabbed_lines_witness :
    (success ⟨some [("username", "already taken")], [("ok", "false")]⟩
        ⟨[("username", "a")], "<p>old</p>", [], []⟩).errorsHtml
      = "<p>There were one or more errors:</p>" ++
          String.join ([("username", "already taken")].map
            (fun err => "<p>\t" ++ err.1 ++ ": " ++ err.2 ++ "</p>")) :=
  success_writes_header_then_tabbed_lines
    ⟨some [("username", "already taken")], [("ok", "false")]⟩ [("username", "already taken")]
    ⟨[("username", "a")], "<p>old</p>", [], []⟩ rfl

/-- C2. For an `errors` list of n tuples whose labels and messages hold no markup, the
block written by the success handler reads back as the header paragraph followed by
exactly n error paragraphs, and for every i < n the i-th error paragraph is the one
built from the i-th tuple. -/
theorem success_paragraphs_follow_errors (response : Response) (errors : List ErrorPair)
    (page : Page) (h : response.errors = some errors)
    (hclean : ∀ err ∈ errors, NoMarkup err.1 ∧ NoMarkup err.2) :
    ∃ ps : List String,
      paragraphs (success response page).errorsHtml = some (headerText :: ps)
        ∧ ps.length = errors.length
        ∧ (∀ i (hi : i < errors.length), ps[i]? = some (errText errors[i])
            ∧ errParagraph errors[i] = "<p>" ++ errText errors[i] ++ "</p>") := by
  refine ⟨errors.map errText, ?_, by simp, ?_⟩
  · simp only [success, h]
    exact paragraphs_buildErrHtml errors hclean
  · intro i hi
    refine ⟨by simp [List.getElem?_map, List.getElem?_eq_getElem hi], ?_⟩
    have htab : ("<p>\t" : String) = "<p>" ++ "\t" := by decide
    simp only [errParagraph, errText, htab, String.append_assoc]

theorem success_paragraphs_follow_errors_witness :
    ∃ ps : List String,
      paragraphs (success ⟨some [("username", "taken"), ("password", "too short")], []⟩
          ⟨[], "", [], []⟩).errorsHtml = some (headerText :: ps)
        ∧ ps.length = [("username", "taken"), ("password", "too short")].length
        ∧ (∀ i (hi : i < [("username", "taken"), ("password", "too short")].length),
            ps[i]? = some (errText [("username", "taken"), ("password", "too short")][i])
            ∧ errParagraph [("username", "taken"), ("password", "too short")][i]
              = "<p>" ++ errText [("username", "taken"), ("password", "too short")][i] ++ "</p>") :=
  success_paragraphs_follow_errors ⟨some [("username", "taken"), ("password", "too short")], []⟩
    [("username", "taken"), ("password", "too short")] ⟨[], "", [], []⟩ rfl (by decide)

/-- C3. For a response without the `errors` key the success handler leaves the whole
page as it was: the Error Display Region keeps its contents and no alert is raised. -/
theorem success_without_errors_is_noop (response : Response) (page : Page)
    (h : response.errors = none) :
    success response page = page
      ∧ (success response page).errorsHtml = page.errorsHtml
      ∧ (success response page).alerts = page.alerts := by
  simp [success, h]

theorem success_without_errors_is_noop_witness :
    success ⟨none, [("ok", "true")]⟩ ⟨[], "<p>old</p>", ["earlier"], []⟩
        = ⟨[], "<p>old</p>", ["earlier"], []⟩
      ∧ (success ⟨none, [("ok", "true")]⟩ ⟨[], "<p>old</p>", ["earlier"], []⟩).errorsHtml
        = "<p>old</p>"
      ∧ (success ⟨none, [("ok", "true")]⟩ ⟨[], "<p>old</p>", ["earlier"], []⟩).alerts
        = ["earlier"] :=
  success_without_errors_is_noop ⟨none, [("ok", "true")]⟩ ⟨[], "<p>old</p>", ["earlier"], []⟩ rfl

/-- C4. The error handler called with error description `d` raises exactly one alert,
with message `d`, whatever the other two arguments and the page state are, and leaves
the Error Display Region unchanged. -/
theorem error_alerts_description_once (xhr : Nat) (msg d : String) (page : Page) :
    (error xhr msg d page).alerts = page.alerts ++ [d]
      ∧ (error xhr msg d page).alerts.length = page.alerts.length + 1
      ∧ (error xhr msg d page).errorsHtml = page.errorsHtml := by
  simp [error]

/-- C5. Idempotence of rendering: running the success handler twice with the same
response leaves the page, and so the Error Display Region, as one run does. -/
theorem success_idempotent (response : Response) (page : Page) :
    success response (success response page) = success response page
      ∧ (success response (success response page)).errorsHtml
        = (success response page).errorsHtml := by
  cases h : response.errors <;> simp [success, h]

/-- C6. One invocation of `attempt_register` issues exactly one request, a POST to
`/register_user/` whose body is the serialization of the current form fields, and it
neither writes the Error Display Region nor raises an alert. -/
theorem attempt_register_issues_one_post (serialize : List (String × String) → String)
    (page : Page) :
    (attempt_register serialize page).requests
        = page.requests ++ [⟨"/register_user/", "POST", serialize page.form⟩]
      ∧ (attempt_register serialize page).requests.length = page.requests.length + 1
      ∧ (attempt_register serialize page).errorsHtml = page.errorsHtml
      ∧ (attempt_register serialize page).alerts = page.alerts
      ∧ (attempt_register serialize page).form = page.form := by
  simp [attempt_register]

/-- C7. Only the `errors` field is interpreted: two responses that agree on the presence
and value of `errors` give the same page, whatever their other top-level fields. -/
theorem success_depends_only_on_errors (r1 r2 : Response) (page : Page)
    (h : r1.errors = r2.errors) :
    success r1 page = success r2 page := by
  simp [success, h]

theorem success_depends_only_on_errors_witness :
    success ⟨some [("username", "taken")], [("ok", "false")]⟩ ⟨[], "x", [], []⟩
      = success ⟨some [("username", "taken")], [("debug", "1"), ("version", "2")]⟩
          ⟨[], "x", [], []⟩ :=
  success_depends_only_on_errors ⟨some [("username", "taken")], [("ok", "false")]⟩
    ⟨some [("username", "taken")], [("debug", "1"), ("version", "2")]⟩ ⟨[], "x", [], []⟩ rfl

/-- C8. Last response wins: after any finite sequence of successful responses handled in
arrival order, the Error Display Region holds the block rendered from the last response
that carries `errors`, and its initial contents when no response carries `errors`. -/
theorem deliverAll_last_errors_win (responses : List Response) (page : Page) :
    (deliverAll responses page).errorsHtml
      = match lastErrors responses with
        | some errors => buildErrHtml errors
        | none => page.errorsHtml := by
  induction responses using List.reverseRecOn with
  | nil => simp [deliverAll, lastErrors]
  | append_singleton rs r ih =>
    rw [deliverAll_concat, lastErrors_concat]
    cases h : r.errors with
    | none => simpa [success, h] using ih
    | some errors => simp [success, h]

/-- C9. A response whose `errors` key holds an empty list still overwrites the Error
Display Region: whatever it held, it now holds exactly the header paragraph. -/
theorem success_empty_errors_writes_header (response : Response) (page : Page)
    (h : response.errors = some []) :
    (success response page).errorsHtml = "<p>There were one or more errors:</p>"
      ∧ paragraphs (success response page).errorsHtml
        = some ["There were one or more errors:"] := by
  simp only [success, h]
  decide

theorem success_empty_errors_writes_header_witness :
    (success ⟨some [], []⟩ ⟨[], "<p>old</p>", [], []⟩).errorsHtml
        = "<p>There were one or more errors:</p>"
      ∧ paragraphs (success ⟨some [], []⟩ ⟨[], "<p>old</p>", [], []⟩).errorsHtml
        = some ["There were one or more errors:"] :=
  success_empty_errors_writes_header ⟨some [], []⟩ ⟨[], "<p>old</p>", [], []⟩ rfl

/-- C10. Labels and messages are concatenated into the rendered block verbatim, without
escaping, so rendering is not injective: the one-element list `[("a", "b</p><p>\tc: d")]`
and the two-element list `[("a", "b"), ("c", "d")]` both make the success handler write
`<p>There were one or more errors:</p><p>\ta: b</p><p>\tc: d</p>` to the Error Display
Region, whatever the region held and whatever the other fields of the responses are. -/
theorem success_not_injective_on_errors (others1 others2 : List (String × String))
    (page : Page) :
    [("a", "b</p><p>\tc: d")] ≠ [(("a", "b") : ErrorPair), ("c", "d")]
      ∧ [(("a", "b</p><p>\tc: d") : ErrorPair)].length ≠ [(("a", "b") : ErrorPair), ("c", "d")].length
      ∧ (success ⟨some [("a", "b</p><p>\tc: d")], others1⟩ page).errorsHtml
        = (success ⟨some [("a", "b"), ("c", "d")], others2⟩ page).errorsHtml
      ∧ (success ⟨some [("a", "b</p><p>\tc: d")], others1⟩ page).errorsHtml
        = "<p>There were one or more errors:</p><p>\ta: b</p><p>\tc: d</p>"
      ∧ (success ⟨some [("a", "b"), ("c", "d")], others2⟩ page).errorsHtml
        = "<p>There were one or more errors:</p><p>\ta: b</p><p>\tc: d</p>"
      ∧ (∀ (errors : List ErrorPair) (others : List (String × String)),
          (success ⟨some errors, others⟩ page).errorsHtml
            = "<p>There were one or more errors:</p>" ++
                String.join (errors.map (fun err => "<p>\t" ++ err.1 ++ ": " ++ err.2 ++ "</p>")))
      ∧ ¬ Function.Injective buildErrHtml := by
  have hne : [(("a", "b</p><p>\tc: d") : ErrorPair)] ≠ [(("a", "b") : ErrorPair), ("c", "d")] := by
    decide
  have h1 : buildErrHtml [("a", "b</p><p>\tc: d")]
      = "<p>There were one or more errors:</p><p>\ta: b</p><p>\tc: d</p>" := by
    decide
  have h2 : buildErrHtml [("a", "b"), ("c", "d")]
      = "<p>There were one or more errors:</p><p>\ta: b</p><p>\tc: d</p>" := by
    decide
  refine ⟨hne, by decide, ?_, ?_, ?_, ?_, fun hinj => hne (hinj (h1.trans h2.symm))⟩
  · simp only [success]
    exact h1.trans h2.symm
  · simp only [success]
    exact h1
  · simp only [success]
    exact h2
  · intro errors others
    simp only [success]
    exact buildErrHtml_eq_join errors

end RegAjax
